import Mathlib

/-!
# pier: cmd/pier/main.go

A verification development for the entry-point file of `TreGalloway/pier`.

The file consists of three statements:

    myStyle := lipgloss.NewStyle().Foreground(lipgloss.Color("#FF0000"))
    styledText := myStyle.Render("Hello")
    fmt.Println(styledText)

Everything that builds or renders a style is a call into
`github.com/charmbracelet/lipgloss`, a third-party module whose code is not
part of this repository. The embedding therefore takes that module as a
parameter (`Lipgloss`), with exactly the operations and result shapes that
main.go uses, and proves what the three statements do for every behaviour
of it.
-/

namespace Pier

/-! ## The external styling module, as main.go uses it -/

/-- The four lipgloss operations that main.go calls, with the shapes visible
at the call sites: `NewStyle()` is used as a method receiver, `Color(..)` is
applied to one string and passed as the single argument of `Foreground`, whose
single result is bound to `myStyle`; `Render` is applied to one string and its
single result is bound to `styledText`. -/
structure Lipgloss where
  /-- The type of `lipgloss.NewStyle()` and of `myStyle`. -/
  Style : Type
  /-- The type of `lipgloss.Color("#FF0000")`. -/
  TerminalColor : Type
  /-- Models `lipgloss.NewStyle()`. -/
  NewStyle : Style
  /-- Models `lipgloss.Color(s)`. -/
  Color : String → TerminalColor
  /-- Models `style.Foreground(color)`. -/
  Foreground : Style → TerminalColor → Style
  /-- Models `style.Render(text)`. -/
  Render : Style → String → String

/-! ## Process state -/

/-- The part of the process state the program could observe or change: the
command line (`os.Args`), the environment, and the bytes written to standard
output so far. -/
structure World where
  args : List String
  environ : List (String × String)
  stdout : String

/-- Models `fmt.Println(a)` for one string operand: the operand followed by a
newline is written to standard output. -/
def Println (w : World) (a : String) : World :=
  { w with stdout := w.stdout ++ (a ++ "\n") }

/-! ## main.go -/

/-- Line 13: `myStyle := lipgloss.NewStyle().Foreground(lipgloss.Color("#FF0000"))`. -/
def myStyle (L : Lipgloss) : L.Style :=
  L.Foreground L.NewStyle (L.Color "#FF0000")

/-- Line 16: `styledText := myStyle.Render("Hello")`. -/
def styledText (L : Lipgloss) : String :=
  L.Render (myStyle L) "Hello"

/-- Lines 13 to 19, in order; the last statement is `fmt.Println(styledText)`.
Nothing in the file reads `os.Args`, the environment or the imported `config`
and `cobra` packages. -/
def main (L : Lipgloss) (w : World) : World :=
  Println w (styledText L)

/-! ## The two operations of the spec, as the code spells them -/

/-- The spec operation `create_style(c)`: the expression of line 13 with the
colour string as a variable. -/
def create_style (L : Lipgloss) (c : String) : L.Style :=
  L.Foreground L.NewStyle (L.Color c)

/-- The spec operation `render(style, text)`: the method call of line 16. -/
def render (L : Lipgloss) (style : L.Style) (text : String) : String :=
  L.Render style text

/-! ## Helper lemmas -/

theorem Println_stdout (w : World) (a : String) :
    (Println w a).stdout = w.stdout ++ (a ++ "\n") := rfl

theorem myStyle_eq_create_style (L : Lipgloss) :
    myStyle L = create_style L "#FF0000" := rfl

theorem styledText_eq_render (L : Lipgloss) :
    styledText L = render L (create_style L "#FF0000") "Hello" := rfl

/-! ## Claims -/

/-- C7: the program appends to standard output exactly
`render(create_style("#FF0000"), "Hello")` followed by one line terminator and
nothing else; the file defines no command or flag and reads no configuration,
and the equation holds for every command line in the prior process state. -/
theorem main_writes_rendered_line (L : Lipgloss) (w : World) :
    (main L w).stdout
      = w.stdout ++ (render L (create_style L "#FF0000") "Hello" ++ "\n") := by
  unfold main
  rw [Println_stdout, styledText_eq_render]

/-! ## Further properties of main.go -/

/-- The program always writes at least a line terminator, and the last
character it writes is the line terminator, whatever the styling module
returns. -/
theorem main_stdout_ends_with_newline (L : Lipgloss) (w : World) :
    (main L w).stdout.data.getLast? = some '\n' ∧ (main L w).stdout ≠ "" := by
  have h : (main L w).stdout.data = (w.stdout.data ++ (styledText L).data) ++ ['\n'] := by
    simp [main, Println, String.data_append]
  constructor
  · rw [h, List.getLast?_concat]
  · intro hempty
    have h2 := congrArg String.data hempty
    rw [h] at h2
    simp at h2

/-- The program leaves the command line and the environment as they were and
only extends standard output: what was written before stays in front. -/
theorem main_frame (L : Lipgloss) (w : World) :
    (main L w).args = w.args ∧ (main L w).environ = w.environ ∧
    w.stdout.data <+: (main L w).stdout.data := by
  refine ⟨rfl, rfl, ?_⟩
  simp [main, Println, String.data_append]

end Pier
